import Mathlib

/-!
Shallow embedding of the CycloRec recommendation simulator core
(rating store, bandit engine, evaluator, round loops) and proofs of the
specification claims about it.

Conventions of the embedding:
* Python floats that may be NaN are modelled as Option Rat, with none
  standing for the NaN sentinel; real-valued arithmetic is modelled over
  the exact rationals.
* numpy arrays become Lean lists; in-place element updates become
  List.set, reads become List.getD (with default 0, reachable only out
  of bounds, where numpy would raise).
* Randomised choices (numpy random.choice and friends) are modelled by
  an explicit choice function passed as a parameter, constrained only to
  return a member of the candidate list it is given.
* math.log and math.sqrt are external numeric primitives for the code;
  they are abstracted as function parameters of the embedding.
-/

namespace CycloRec

/-- A rating record as stored in the held-out (test) set and passed to the
evaluator and the relevance predicates: a dictionary with at least the
rating field, which may be the NaN sentinel (none). Extra dataset-specific
fields are opaque to every operation modelled here and are omitted. -/
structure RatingRecord where
  rating : Option ℚ
deriving DecidableEq, Repr

/-- The rating store (src/data_layers/data_layer.py, class DataLayer),
restricted to the fields the verified operations touch.
test_set holds the held-out entries keyed by (user index, item index); it is
built once in the constructor and never mutated.

The utility matrix keeps the pandas distinction between row labels and row
positions, because the two do not coincide on every constructed store:
matrix_row_labels lists the row labels in positional order, and
matrix_cells holds the cell contents keyed by row LABEL and column label
(none = NaN, also for every cell outside the stored rows). After
construction the matrix has one row per user of the TRAINING partition
only, relabelled 0..k-1 in positional order (data_layer.py line 164):
users absent from the training partition get no row — the padding at line
128 discards the result of DataFrame.append, and the inferred-catalog path
pads nothing — so k can be smaller than n_users. Columns are relabelled
0..n_items-1 in positional order (line 165, which fails at construction
unless the pivot covers all n_items columns), so for columns a positional
read at item_idx < n_items is the label read. -/
structure DataLayer where
  relevanceThreshold : ℚ
  antiRelevanceThreshold : ℚ
  test_set : List (ℕ × ℕ × RatingRecord)
  matrix_row_labels : List ℕ
  matrix_cells : ℕ → ℕ → Option ℚ
  n_users : ℕ
  n_items : ℕ

namespace DataLayer

/-- The rating column of the held-out set (test_df[rating]). -/
def testRatings (dl : DataLayer) : List (Option ℚ) :=
  dl.test_set.map (fun e => e.2.2.rating)

/-- Constructor count of relevant held-out ratings (data_layer.py lines
144-153): iterating the value_counts of the rating column, skipping NaN,
and adding the multiplicity of every value with value >= relevanceThreshold
is the same as counting the non-NaN entries with value >= relevanceThreshold. -/
def relevantCount (dl : DataLayer) : ℕ :=
  dl.testRatings.countP fun r =>
    match r with
    | none => false
    | some v => decide (dl.relevanceThreshold ≤ v)

/-- Constructor count of antirelevant held-out ratings: non-NaN entries with
value <= antiRelevanceThreshold (note the non-strict comparison, unlike the
strict isAntiRelevant predicate below). -/
def antiRelevantCount (dl : DataLayer) : ℕ :=
  dl.testRatings.countP fun r =>
    match r with
    | none => false
    | some v => decide (v ≤ dl.antiRelevanceThreshold)

/-- toDiscoverCount = antiRelevantCount + relevantCount (line 154). -/
def toDiscoverCount (dl : DataLayer) : ℕ :=
  dl.antiRelevantCount + dl.relevantCount

/-- get_known_rating (data_layer.py line 335): positional read of the
utility-matrix cell with pandas .iat. The row position user_idx resolves to
the label stored at that position; a position at or past the row count
raises IndexError, modelled as the outer none (likewise a column position
at or past n_items; in-range column positions equal the column labels, see
the structure comment). -/
def get_known_rating (dl : DataLayer) (user_idx item_idx : ℕ) :
    Option (Option ℚ) :=
  match dl.matrix_row_labels.get? user_idx with
  | none => none
  | some lbl =>
      if item_idx < dl.n_items then some (dl.matrix_cells lbl item_idx)
      else none

/-- set_rating (data_layer.py line 360): early return when the incoming
rating is NaN, otherwise label-based upsert of the cell with pandas .at —
when no row is labelled user_idx yet, .at creates one at the END of the
matrix (the source comments at line 370 on exactly this), so the new label
lands at position (row count), not necessarily at position user_idx. -/
def set_rating (dl : DataLayer) (user_idx item_idx : ℕ) (rating : Option ℚ) :
    DataLayer :=
  match rating with
  | none => dl
  | some v =>
      { dl with
        matrix_row_labels :=
          if user_idx ∈ dl.matrix_row_labels then dl.matrix_row_labels
          else dl.matrix_row_labels ++ [user_idx]
        matrix_cells := fun u i =>
          if u = user_idx ∧ i = item_idx then some v else dl.matrix_cells u i }

/-- isRelevant (data_layer.py line 410): NaN is never relevant; otherwise
strict comparison rating > relevanceThreshold. -/
def isRelevant (dl : DataLayer) (rating : RatingRecord) : Bool :=
  match rating.rating with
  | none => false
  | some v => decide (dl.relevanceThreshold < v)

/-- isAntiRelevant (data_layer.py line 424): NaN is never antirelevant;
otherwise strict comparison rating < antiRelevanceThreshold. -/
def isAntiRelevant (dl : DataLayer) (rating : RatingRecord) : Bool :=
  match rating.rating with
  | none => false
  | some v => decide (v < dl.antiRelevanceThreshold)

/-- get_user_test_ratings_dict (data_layer.py line 399): the held-out
entries of one user, as an item-indexed association list. -/
def get_user_test_ratings_dict (dl : DataLayer) (user_idx : ℕ) :
    List (ℕ × RatingRecord) :=
  (dl.test_set.filter (fun e => e.1 == user_idx)).map (fun e => (e.2.1, e.2.2))

end DataLayer

/-- UserLayer.get_test_rating (user_layer.py line 133): the held-out record
for one item of the session user, or the explicit NaN-sentinel record when
the user did not rate that item in the test set. -/
def UserLayer.get_test_rating (dl : DataLayer) (user_idx item_idx : ℕ) :
    RatingRecord :=
  match (dl.get_user_test_ratings_dict user_idx).find? (fun p => p.1 == item_idx) with
  | some p => p.2
  | none => { rating := none }

/-- The evaluator (src/evaluator/evaluator.py): running counters and the
five cumulative metric values, plus the data layer it classifies against.
The constructor initialises every counter and metric to zero. -/
structure Evaluator where
  dataLayer : DataLayer
  n_iters : ℕ
  cum_recall_value : ℚ
  recall_count : ℕ
  cum_fallout_value : ℚ
  fallout_count : ℕ
  precision_count : ℕ
  cum_precision_value : ℚ
  antiprecision_count : ℕ
  cum_antiprecision_value : ℚ
  cum_discovering : ℚ
  discovering_count : ℕ

namespace Evaluator

/-- Evaluator constructor (evaluator.py lines 4-29): all counters zero. -/
def init (dl : DataLayer) : Evaluator :=
  { dataLayer := dl
    n_iters := 0
    cum_recall_value := 0
    recall_count := 0
    cum_fallout_value := 0
    fallout_count := 0
    precision_count := 0
    cum_precision_value := 0
    antiprecision_count := 0
    cum_antiprecision_value := 0
    cum_discovering := 0
    discovering_count := 0 }

/-- all_metrics (evaluator.py lines 42-85): increments the iteration
counter, updates recall and precision counters in the relevant branch,
fallout and antiprecision counters in the antirelevant branch, and the
discovery counters when either branch fired; returns the new state and the
five cumulative values. Divisions are exact rational divisions. -/
def all_metrics (ev : Evaluator) (rating : RatingRecord) :
    Evaluator × (ℚ × ℚ × ℚ × ℚ × ℚ) :=
  let n_iters := ev.n_iters + 1
  let rel := ev.dataLayer.isRelevant rating
  let recall_count := if rel then ev.recall_count + 1 else ev.recall_count
  let cum_recall_value :=
    if rel then (recall_count : ℚ) / (ev.dataLayer.relevantCount : ℚ)
    else ev.cum_recall_value
  let precision_count := if rel then ev.precision_count + 1 else ev.precision_count
  let cum_precision_value := (precision_count : ℚ) / (n_iters : ℚ)
  let anti := ev.dataLayer.isAntiRelevant rating
  let fallout_count := if anti then ev.fallout_count + 1 else ev.fallout_count
  let cum_fallout_value :=
    if anti then (fallout_count : ℚ) / (ev.dataLayer.antiRelevantCount : ℚ)
    else ev.cum_fallout_value
  let antiprecision_count :=
    if anti then ev.antiprecision_count + 1 else ev.antiprecision_count
  let cum_antiprecision_value := (antiprecision_count : ℚ) / (n_iters : ℚ)
  let toggle := rel || anti
  let discovering_count :=
    if toggle then ev.discovering_count + 1 else ev.discovering_count
  let cum_discovering :=
    if toggle then (discovering_count : ℚ) / (ev.dataLayer.toDiscoverCount : ℚ)
    else ev.cum_discovering
  ({ ev with
      n_iters := n_iters
      recall_count := recall_count
      cum_recall_value := cum_recall_value
      precision_count := precision_count
      cum_precision_value := cum_precision_value
      fallout_count := fallout_count
      cum_fallout_value := cum_fallout_value
      antiprecision_count := antiprecision_count
      cum_antiprecision_value := cum_antiprecision_value
      discovering_count := discovering_count
      cum_discovering := cum_discovering },
   (cum_recall_value, cum_precision_value, cum_fallout_value,
    cum_antiprecision_value, cum_discovering))

/-- restart_metrics (evaluator.py lines 98-107), exactly the assignments the
source performs: n_iters, the five cumulative values, precision_count and
antiprecision_count are zeroed; recall_count, fallout_count and
discovering_count are not touched by the source. -/
def restart_metrics (ev : Evaluator) : Evaluator :=
  { ev with
    n_iters := 0
    cum_recall_value := 0
    cum_fallout_value := 0
    precision_count := 0
    cum_precision_value := 0
    antiprecision_count := 0
    cum_antiprecision_value := 0
    cum_discovering := 0 }

end Evaluator

/-- Bandit engine state (src/mab/naive_mab.py, class NaiveMAB): index-aligned
per-arm vectors, the priors, the policy hyperparameters, the total-reward
accumulator and the epoch counter t. The selection policy itself is kept
outside the state and modelled as the explicit arm choice fed to pullArm. -/
structure NaiveMAB where
  num_pulls : List ℕ
  alphas : List ℚ
  alpha0 : ℚ
  betas : List ℚ
  beta0 : ℚ
  init_estimate : ℚ
  reward_estimates : List ℚ
  epsilon : ℚ
  delta : ℚ
  totalrewards : ℚ
  t : ℕ
deriving DecidableEq, Repr

namespace NaiveMAB

/-- NaiveMAB constructor (naive_mab.py lines 16-58). Under the constructor
assertion alphas >= 0 and betas >= 0, the initial estimate if-chain reduces
to: 0 when alpha0 = 0, alpha0/(alpha0+beta0) otherwise. -/
def mk0 (narms : ℕ) (epsilon delta alphas betas : ℚ) : NaiveMAB :=
  let init_estimate := if alphas = 0 then 0 else alphas / (alphas + betas)
  { num_pulls := List.replicate narms 0
    alphas := List.replicate narms alphas
    alpha0 := alphas
    betas := List.replicate narms betas
    beta0 := betas
    init_estimate := init_estimate
    reward_estimates := List.replicate narms init_estimate
    epsilon := epsilon
    delta := delta
    totalrewards := 0
    t := 1 }

/-- The state change shared by pull (naive_mab.py lines 61-71) and
pull_fixed_arm (lines 74-82): the chosen arm's pull count and the epoch
counter both increase by one. For pull, armidx is the index returned by the
selection policy; for pull_fixed_arm it is the caller's argument. -/
def pullArm (m : NaiveMAB) (armidx : ℕ) : NaiveMAB :=
  { m with
    num_pulls := m.num_pulls.set armidx (m.num_pulls.getD armidx 0 + 1)
    t := m.t + 1 }

/-- The failure branch of update_rewards (shared by the reward 0 branch and
the nanAsFailure branch): increments beta and recomputes the estimate. -/
def failureUpdate (m : NaiveMAB) (armidx : ℕ) : NaiveMAB :=
  let b := m.betas.getD armidx 0 + 1
  let a := m.alphas.getD armidx 0
  { m with
    betas := m.betas.set armidx b
    reward_estimates := m.reward_estimates.set armidx (a / (a + b)) }

/-- update_rewards (naive_mab.py lines 85-105). The source if-chain:
a non-NaN reward equal to 1 is a success (alpha increments, estimate is
recomputed, the reward is added to the accumulator); a non-NaN reward equal
to 0 is a failure; every remaining case (NaN, or any other numeric value)
falls to the elif on nanAsFailure: failure when true, no change when false. -/
def update_rewards (m : NaiveMAB) (armidx : ℕ) (reward : Option ℚ)
    (nanAsFailure : Bool) : NaiveMAB :=
  match reward with
  | some r =>
      if r = 1 then
        let a := m.alphas.getD armidx 0 + 1
        let b := m.betas.getD armidx 0
        { m with
          alphas := m.alphas.set armidx a
          reward_estimates := m.reward_estimates.set armidx (a / (a + b))
          totalrewards := m.totalrewards + r }
      else if r = 0 then m.failureUpdate armidx
      else if nanAsFailure then m.failureUpdate armidx
      else m
  | none => if nanAsFailure then m.failureUpdate armidx else m

/-- reset_bandit (naive_mab.py lines 108-118): refills every per-arm vector
with its prior and restarts the accumulator and the epoch counter. -/
def reset_bandit (m : NaiveMAB) : NaiveMAB :=
  { m with
    totalrewards := 0
    num_pulls := List.replicate m.num_pulls.length 0
    t := 1
    alphas := List.replicate m.alphas.length m.alpha0
    betas := List.replicate m.betas.length m.beta0
    reward_estimates := List.replicate m.reward_estimates.length m.init_estimate }

/-- RestrictionNaiveMAB.pull (src/mab/restriction_naive_mab.py lines 26-53):
the policy chooses a position fake_armidx inside the supplied available_arms
subset; the resolved global index is available_arms[fake_armidx], whose pull
count is incremented together with the epoch counter. Returns the pair of
indices together with the new state. -/
def pullRestricted (m : NaiveMAB) (available_arms : List ℕ) (fake_armidx : ℕ) :
    (ℕ × ℕ) × NaiveMAB :=
  let armidx := available_arms.getD fake_armidx 0
  ((fake_armidx, armidx), m.pullArm armidx)

end NaiveMAB

/-- One step of the bandit engine state machine: the operations the claims
quantify over. Pull steps require the chosen arm to be a valid index, as it
is in the source (selection policies return an index of the arm arrays and
the restricted variant resolves into them). -/
inductive MABStep : NaiveMAB → NaiveMAB → Prop
  | pull (m : NaiveMAB) (i : ℕ) (h : i < m.num_pulls.length) :
      MABStep m (m.pullArm i)
  | pullRestricted (m : NaiveMAB) (arms : List ℕ) (fake : ℕ)
      (h : arms.getD fake 0 < m.num_pulls.length) :
      MABStep m (m.pullRestricted arms fake).2
  | update (m : NaiveMAB) (i : ℕ) (r : Option ℚ) (naf : Bool) :
      MABStep m (m.update_rewards i r naf)
  | reset (m : NaiveMAB) : MABStep m m.reset_bandit

/-- States reachable from construction by pull, pull_fixed_arm,
update_rewards and reset_bandit calls. -/
def MABReachable (narms : ℕ) (epsilon delta alphas betas : ℚ)
    (s : NaiveMAB) : Prop :=
  Relation.ReflTransGen MABStep (NaiveMAB.mk0 narms epsilon delta alphas betas) s

/-- np.max over a nonempty numpy vector (empty input returns the default,
a case the policies never reach past their emptiness guard). -/
def npMax : List ℚ → ℚ
  | [] => 0
  | x :: xs => xs.foldl max x

/-- np.where(n_pulls == 0)[0]: the ascending list of positions holding a
zero pull count. -/
def zeroIndexes (n_pulls : List ℕ) : List ℕ :=
  (List.range n_pulls.length).filter fun i => decide (n_pulls.getD i 0 = 0)

/-- np.where(values == np.max(values))[0]: the ascending list of positions
attaining the maximum. -/
def maxIndexes (values : List ℚ) : List ℕ :=
  (List.range values.length).filter fun i => decide (values.getD i 0 = npMax values)

/-- The delta patch of the ucb policy (mab_policies.py lines 164-166): a
negative delta is replaced by 1 + epoch * (log epoch)^2. -/
def patchDelta (log : ℚ → ℚ) (mab_epoch : ℕ) (delta : ℚ) : ℚ :=
  if delta < 0 then 1 + (mab_epoch : ℚ) * (log (mab_epoch : ℚ)) ^ 2 else delta

/-- The per-arm ucb score (mab_policies.py line 169):
rewards[i] + sqrt(delta * log(epoch) / n_pulls[i]). -/
def ucbScore (log sqrt : ℚ → ℚ) (rewards : List ℚ) (n_pulls : List ℕ)
    (mab_epoch : ℕ) (delta : ℚ) (i : ℕ) : ℚ :=
  rewards.getD i 0 + sqrt (delta * log (mab_epoch : ℚ) / (n_pulls.getD i 0 : ℚ))

/-- The ucb policy (mab_policies.py lines 136-173). Raising UnavailableArms
on an empty candidate list is modelled as none. choose stands for
np.random.choice over the computed candidate index list; log and sqrt stand
for math.log and math.sqrt. -/
def ucb (log sqrt : ℚ → ℚ) (choose : List ℕ → ℕ) (rewards : List ℚ)
    (n_pulls : List ℕ) (mab_epoch : ℕ) (delta : ℚ) : Option ℕ :=
  if rewards.length = 0 then none
  else
    let zeroes_indexes := zeroIndexes n_pulls
    if 0 < zeroes_indexes.length then some (choose zeroes_indexes)
    else
      let d := patchDelta log mab_epoch delta
      let values :=
        (List.range rewards.length).map (ucbScore log sqrt rewards n_pulls mab_epoch d)
      some (choose (maxIndexes values))

/-- The common shape of the two round loops of
src/recommenders/base_recommender.py: a while loop whose body either
completes one iteration (mutating the recommender state and emitting one
result row, after which the loop counter advances) or hits the exhaustion
exception and stops, returning the rows accumulated so far. The loop body
(strategy selection, rating check, learning updates) is abstracted as step;
none models the raised exhaustion exception. The fuel argument is the
number of loop-counter values the while condition still accepts. -/
def loopIter {σ ρ : Type} (step : σ → Option (σ × ρ)) : σ → ℕ → List ρ
  | _, 0 => []
  | s, n + 1 =>
      match step s with
      | some (s2, r) => r :: loopIter step s2 n
      | none => []

/-- recommendation_round_loop (base_recommender.py lines 272-328): the
counter starts at i = 0 and runs while i < maxiter, so absent exhaustion
exactly maxiter rounds execute. -/
def recommendation_round_loop {σ ρ : Type} (step : σ → Option (σ × ρ))
    (s : σ) (maxiter : ℕ) : List ρ :=
  loopIter step s maxiter

/-- fixed_user_recommendation_loop (base_recommender.py lines 337-404): the
counter starts at i = 1 and runs while i < maxiter, advancing only on a
successful iteration, so absent exhaustion exactly maxiter - 1 iterations
execute (and none when maxiter <= 1). -/
def fixed_user_recommendation_loop {σ ρ : Type} (step : σ → Option (σ × ρ))
    (s : σ) (maxiter : ℕ) : List ρ :=
  loopIter step s (maxiter - 1)

/-! ## Helper lemmas -/

theorem getD_set_self {α : Type} (l : List α) (i : ℕ) (a d : α)
    (h : i < l.length) : (l.set i a).getD i d = a := by
  rw [List.getD_eq_getElem _ _ (by simpa using h)]
  simp [List.getElem_set]

theorem getD_set_ne {α : Type} (l : List α) {i j : ℕ} (a d : α)
    (h : j ≠ i) : (l.set i a).getD j d = l.getD j d := by
  unfold List.getD
  rw [List.get?_set_ne _ _ (fun hij => h hij.symm)]

theorem sum_set_getD_succ (l : List ℕ) (i : ℕ) (h : i < l.length) :
    (l.set i (l.getD i 0 + 1)).sum = l.sum + 1 := by
  induction l generalizing i with
  | nil => simp at h
  | cons a as ih =>
      cases i with
      | zero => simp [List.getD_cons_zero, Nat.add_right_comm]
      | succ n =>
          have hn : n < as.length := by simpa using h
          show (a :: as.set n (as.getD n 0 + 1)).sum = (a :: as).sum + 1
          simp only [List.sum_cons, ih n hn]
          omega

theorem countP_add_countP_le_length {α : Type} (l : List α) (p q : α → Bool)
    (h : ∀ a ∈ l, ¬(p a = true ∧ q a = true)) :
    l.countP p + l.countP q ≤ l.length := by
  induction l with
  | nil => simp
  | cons a as ih =>
      have ha := h a (List.mem_cons_self a as)
      have has : ∀ b ∈ as, ¬(p b = true ∧ q b = true) :=
        fun b hb => h b (List.mem_cons_of_mem a hb)
      have hle := ih has
      rw [List.countP_cons, List.countP_cons]
      simp only [List.length_cons]
      by_cases hp : p a = true
      · by_cases hq : q a = true
        · exact absurd ⟨hp, hq⟩ ha
        · simp [hp, hq]
          omega
      · by_cases hq : q a = true
        · simp [hp, hq]
          omega
        · simp [hp, hq]
          omega

theorem getD_map_range (f : ℕ → ℚ) {n j : ℕ} (h : j < n) :
    ((List.range n).map f).getD j 0 = f j := by
  have hj : j < ((List.range n).map f).length := by simpa using h
  rw [List.getD_eq_getElem _ _ hj]
  simp

/-! ## Claim C8: set_rating / get_known_rating round trip

The round trip fails on the code for constructed stores with at least two
users absent from the training partition: the matrix has k rows labelled
0..k-1 (one per train user; no rows are ever padded for the others, since
data_layer.py line 128 discards the result of DataFrame.append and the
inferred-catalog path pads nothing, contradicting the alignment comment at
lines 156-160 and the class docstring). For a valid dense user index
u >= k+1, set_rating writes via label-based .at, creating the row labelled
u at position k, and get_known_rating then reads position u with .iat and
raises IndexError instead of returning the written rating. -/

/-- A store as built from one training rating by user 0 (so one matrix row,
labelled 0) together with two test-only users 1 and 2: n_users = 3 exceeds
the single matrix row. -/
def dlOneTrainRow : DataLayer :=
  { relevanceThreshold := 3
    antiRelevanceThreshold := 3
    test_set := [(1, 0, { rating := some 4 }), (2, 0, { rating := some 4 })]
    matrix_row_labels := [0]
    matrix_cells := fun u i => if u = 0 ∧ i = 0 then some 2 else none
    n_users := 3
    n_items := 1 }

/-- C8 failing run: on dlOneTrainRow, writing the valid cell (2, 0) appends
the row labelled 2 at position 1, and the positional read of row 2 then
fails with IndexError (outer none) instead of returning the written rating
some 5; at the row the labels do cover (user 0) the round trip holds, and
the NaN write is a no-op as claimed. -/
theorem set_rating_read_error :
    (dlOneTrainRow.set_rating 2 0 (some 5)).get_known_rating 2 0 = none ∧
    (dlOneTrainRow.set_rating 2 0 (some 5)).matrix_row_labels = [0, 2] ∧
    (dlOneTrainRow.set_rating 0 0 (some 5)).get_known_rating 0 0 =
      some (some 5) ∧
    dlOneTrainRow.set_rating 2 0 none = dlOneTrainRow := by
  refine ⟨?_, ?_, ?_, rfl⟩ <;>
    simp [dlOneTrainRow, DataLayer.set_rating, DataLayer.get_known_rating]

/-- A small concrete data layer reused by several witnesses. -/
def dlThree : DataLayer :=
  { relevanceThreshold := 3
    antiRelevanceThreshold := 3
    test_set := []
    matrix_row_labels := []
    matrix_cells := fun _ _ => none
    n_users := 1
    n_items := 1 }

/-! ## Claim C9: relevance and antirelevance predicates -/

/-- C9: isRelevant holds exactly on non-missing ratings strictly above the
relevance threshold, isAntiRelevant exactly on non-missing ratings strictly
below the antirelevance threshold; a rating equal to a threshold is
classified as neither by that predicate, and a missing rating is neither. -/
theorem relevance_predicates_spec (dl : DataLayer) (r : RatingRecord) :
    (dl.isRelevant r = true ↔
      ∃ v : ℚ, r.rating = some v ∧ dl.relevanceThreshold < v) ∧
    (dl.isAntiRelevant r = true ↔
      ∃ v : ℚ, r.rating = some v ∧ v < dl.antiRelevanceThreshold) ∧
    (r.rating = some dl.relevanceThreshold → dl.isRelevant r = false) ∧
    (r.rating = some dl.antiRelevanceThreshold → dl.isAntiRelevant r = false) ∧
    (r.rating = none → dl.isRelevant r = false ∧ dl.isAntiRelevant r = false) := by
  obtain ⟨rv⟩ := r
  cases rv with
  | none => simp [DataLayer.isRelevant, DataLayer.isAntiRelevant]
  | some v =>
      simp only [DataLayer.isRelevant, DataLayer.isAntiRelevant]
      refine ⟨by simp, by simp, ?_, ?_, by simp⟩
      · intro hv
        simp only [Option.some.injEq] at hv
        simp [hv]
      · intro hv
        simp only [Option.some.injEq] at hv
        simp [hv]

/-- Witness for C9: with both thresholds equal to 3, the rating 3 is
classified as neither relevant nor antirelevant, and a missing rating is
neither. -/
theorem relevance_predicates_spec_witness :
    dlThree.isRelevant { rating := some 3 } = false ∧
    dlThree.isAntiRelevant { rating := some 3 } = false ∧
    dlThree.isRelevant { rating := none } = false ∧
    dlThree.isAntiRelevant { rating := none } = false :=
  ⟨(relevance_predicates_spec dlThree { rating := some 3 }).2.2.1 rfl,
   (relevance_predicates_spec dlThree { rating := some 3 }).2.2.2.1 rfl,
   ((relevance_predicates_spec dlThree { rating := none }).2.2.2.2 rfl).1,
   ((relevance_predicates_spec dlThree { rating := none }).2.2.2.2 rfl).2⟩

/-! ## Claim C1: relevantCount + antiRelevantCount versus the held-out size

The constructor counts with non-strict comparisons (rating >=
relevanceThreshold, rating <= antiRelevanceThreshold), so when the two
thresholds coincide a held-out rating equal to them is counted twice and
the sum exceeds the number of held-out entries. -/

/-- A store whose single held-out rating equals both thresholds. -/
def dlDegenerate : DataLayer :=
  { relevanceThreshold := 3
    antiRelevanceThreshold := 3
    test_set := [(0, 0, { rating := some 3 })]
    matrix_row_labels := []
    matrix_cells := fun _ _ => none
    n_users := 1
    n_items := 1 }

/-- C1 counterexample: with coincident thresholds and one held-out rating
exactly at them, relevantCount + antiRelevantCount = 2 exceeds the single
held-out entry, refuting the claim for the degenerate configuration. -/
theorem relevant_counts_counterexample :
    ¬(dlDegenerate.relevantCount + dlDegenerate.antiRelevantCount ≤
      dlDegenerate.test_set.length) := by decide

/-- C1 amended: whenever the antirelevance threshold is strictly below the
relevance threshold — so that no rating is counted by both non-strict
comparisons — relevantCount + antiRelevantCount is at most the number of
held-out entries. -/
theorem relevant_counts_le_test_size (dl : DataLayer)
    (h : dl.antiRelevanceThreshold < dl.relevanceThreshold) :
    dl.relevantCount + dl.antiRelevantCount ≤ dl.test_set.length := by
  unfold DataLayer.relevantCount DataLayer.antiRelevantCount
  have hlen : dl.testRatings.length = dl.test_set.length := by
    simp [DataLayer.testRatings]
  rw [← hlen]
  apply countP_add_countP_le_length
  intro a _ hcontr
  obtain ⟨hp, hq⟩ := hcontr
  cases a with
  | none => simp at hp
  | some v =>
      simp only [decide_eq_true_eq] at hp hq
      exact absurd h (not_lt.mpr (hp.trans hq))

/-- A store with separated thresholds for the C1 witness. -/
def dlSeparated : DataLayer :=
  { relevanceThreshold := 3
    antiRelevanceThreshold := 1
    test_set := [(0, 0, { rating := some 2 }), (0, 1, { rating := none })]
    matrix_row_labels := []
    matrix_cells := fun _ _ => none
    n_users := 1
    n_items := 2 }

/-- Witness for the amended C1 at a concrete store. -/
theorem relevant_counts_le_test_size_witness :
    dlSeparated.antiRelevanceThreshold < dlSeparated.relevanceThreshold ∧
    dlSeparated.relevantCount + dlSeparated.antiRelevantCount ≤
      dlSeparated.test_set.length :=
  ⟨by decide, relevant_counts_le_test_size dlSeparated (by decide)⟩

/-! ## Claim C3: restart_metrics versus the initial state

restart_metrics (evaluator.py lines 98-107) zeroes n_iters, the five
cumulative values, precision_count and antiprecision_count, but does not
assign recall_count, fallout_count or discovering_count, contradicting its
own docstring (Restarts the Evaluator to an initial state) and the claim. -/

/-- A store whose single held-out rating 1 is relevant (threshold 0). -/
def dlRelevant : DataLayer :=
  { relevanceThreshold := 0
    antiRelevanceThreshold := 0
    test_set := [(0, 0, { rating := some 1 })]
    matrix_row_labels := []
    matrix_cells := fun _ _ => none
    n_users := 1
    n_items := 1 }

/-- C3 failing run: starting from a fresh evaluator, one relevant outcome
followed by restart_metrics leaves recall_count at 1, not the initial 0, so
a subsequent all_metrics call reports recall 2 where a freshly constructed
evaluator reports recall 1. -/
theorem restart_metrics_not_initial :
    (((Evaluator.init dlRelevant).all_metrics
        { rating := some 1 }).1.restart_metrics).recall_count = 1 ∧
    (Evaluator.init dlRelevant).recall_count = 0 ∧
    ((((Evaluator.init dlRelevant).all_metrics
        { rating := some 1 }).1.restart_metrics).all_metrics
        { rating := some 1 }).2.1 = 2 ∧
    ((Evaluator.init dlRelevant).all_metrics { rating := some 1 }).2.1 = 1 := by
  have hrel : dlRelevant.isRelevant { rating := some 1 } = true := by decide
  have hcount : dlRelevant.relevantCount = 1 := by decide
  refine ⟨rfl, rfl, ?_, ?_⟩
  · simp [Evaluator.init, Evaluator.all_metrics, Evaluator.restart_metrics,
      hrel, hcount]
  · simp [Evaluator.init, Evaluator.all_metrics, hrel, hcount]

/-! ## Claim C4: iteration counts of the two round loops

recommendation_round_loop starts its counter at i = 0, so absent exhaustion
it runs exactly maxiter rounds; fixed_user_recommendation_loop starts at
i = 1 with the same while i < maxiter condition, so absent exhaustion it
performs only maxiter - 1 recommendations, one fewer than the claim (and
the function docstring) state. -/

/-- C4 failing run: with a loop body that never exhausts and emits one row
per iteration, maxiter = 5 yields 4 rows from
fixed_user_recommendation_loop — not the 5 the claim states — while
recommendation_round_loop yields the full 5 rounds; with maxiter = 1 the
fixed-user loop performs no recommendation at all. -/
theorem fixed_user_loop_off_by_one :
    (fixed_user_recommendation_loop (fun s : Unit => some (s, ())) () 5).length = 4 ∧
    (recommendation_round_loop (fun s : Unit => some (s, ())) () 5).length = 5 ∧
    (fixed_user_recommendation_loop (fun s : Unit => some (s, ())) () 1).length = 0 :=
  ⟨rfl, rfl, rfl⟩

/-! ## Claim C2: rewards that are neither 0, 1 nor NaN

update_rewards (naive_mab.py lines 85-105) has no validation branch: a
numeric reward other than 0 and 1 falls through the success and failure
conditions into the elif on nanAsFailure, so with nanAsFailure = true it is
silently coerced into a failure update rather than rejected. -/

/-- A one-armed bandit at its construction state, zero priors. -/
def mabOneArm : NaiveMAB := NaiveMAB.mk0 1 (1 / 5) 2 0 0

/-- C2 counterexample: reward 2 with the default nanAsFailure = true is not
rejected and does change the bandit state (beta of arm 0 becomes 1). -/
theorem invalid_reward_counterexample :
    mabOneArm.update_rewards 0 (some 2) true ≠ mabOneArm ∧
    (mabOneArm.update_rewards 0 (some 2) true).betas = [1] ∧
    mabOneArm.betas = [0] := by
  have h2 : mabOneArm.update_rewards 0 (some 2) true = mabOneArm.failureUpdate 0 := by
    norm_num [NaiveMAB.update_rewards]
  have hb1 : (mabOneArm.failureUpdate 0).betas = [1] := by
    norm_num [NaiveMAB.failureUpdate, mabOneArm, NaiveMAB.mk0]
  have hb0 : mabOneArm.betas = [0] := rfl
  refine ⟨?_, by rw [h2, hb1], hb0⟩
  intro hEq
  have hlists : ([1] : List ℚ) = [0] := by rw [← hb1, ← h2, hEq, hb0]
  simp at hlists

/-- C2 amended: a numeric reward that is neither 0 nor 1 is never rejected;
update_rewards treats it exactly as it treats the NaN sentinel — a failure
update when nanAsFailure is true and no change otherwise. -/
theorem invalid_reward_as_unknown (m : NaiveMAB) (i : ℕ) (v : ℚ)
    (naf : Bool) (h0 : v ≠ 0) (h1 : v ≠ 1) :
    m.update_rewards i (some v) naf = m.update_rewards i none naf := by
  simp [NaiveMAB.update_rewards, h0, h1]

/-- Witness for the amended C2 at reward 2 on the one-armed bandit. -/
theorem invalid_reward_as_unknown_witness :
    (2 : ℚ) ≠ 0 ∧ (2 : ℚ) ≠ 1 ∧
    mabOneArm.update_rewards 0 (some 2) true =
      mabOneArm.update_rewards 0 none true :=
  ⟨by norm_num, by norm_num,
    invalid_reward_as_unknown mabOneArm 0 2 true (by norm_num) (by norm_num)⟩

/-! ## Claim C6: update_rewards success, failure and unknown semantics -/

/-- Reduction of the success branch of update_rewards. -/
theorem update_rewards_one (m : NaiveMAB) (i : ℕ) (naf : Bool) :
    m.update_rewards i (some 1) naf =
      { m with
        alphas := m.alphas.set i (m.alphas.getD i 0 + 1)
        reward_estimates := m.reward_estimates.set i
          ((m.alphas.getD i 0 + 1) / ((m.alphas.getD i 0 + 1) + m.betas.getD i 0))
        totalrewards := m.totalrewards + 1 } := by
  norm_num [NaiveMAB.update_rewards]

/-- Reduction of the failure branch of update_rewards. -/
theorem update_rewards_zero (m : NaiveMAB) (i : ℕ) (naf : Bool) :
    m.update_rewards i (some 0) naf = m.failureUpdate i := by
  norm_num [NaiveMAB.update_rewards]

/-- Reduction of the NaN branch of update_rewards. -/
theorem update_rewards_none (m : NaiveMAB) (i : ℕ) (naf : Bool) :
    m.update_rewards i none naf = if naf then m.failureUpdate i else m := by
  simp [NaiveMAB.update_rewards]

/-- C6: a success (reward 1) increments alpha of the updated arm, sets its
estimate to alpha/(alpha+beta) and strictly increases the total-reward
accumulator; a failure (reward 0) increments beta, recomputes the estimate
and leaves the accumulator unchanged; the NaN sentinel acts as a failure
update exactly when nanAsFailure is true and otherwise changes nothing; and
from priors alpha = beta = 0, reward 1 then reward 0 on the same arm leaves
the estimate at 1/2. -/
theorem update_rewards_spec (m : NaiveMAB) (i : ℕ) (naf : Bool)
    (ha : i < m.alphas.length) (hb : i < m.betas.length)
    (he : i < m.reward_estimates.length) :
    ((m.update_rewards i (some 1) naf).alphas.getD i 0 = m.alphas.getD i 0 + 1 ∧
     (m.update_rewards i (some 1) naf).reward_estimates.getD i 0 =
       (m.alphas.getD i 0 + 1) / ((m.alphas.getD i 0 + 1) + m.betas.getD i 0) ∧
     (m.update_rewards i (some 1) naf).totalrewards = m.totalrewards + 1 ∧
     m.totalrewards < (m.update_rewards i (some 1) naf).totalrewards) ∧
    ((m.update_rewards i (some 0) naf).betas.getD i 0 = m.betas.getD i 0 + 1 ∧
     (m.update_rewards i (some 0) naf).reward_estimates.getD i 0 =
       m.alphas.getD i 0 / (m.alphas.getD i 0 + (m.betas.getD i 0 + 1)) ∧
     (m.update_rewards i (some 0) naf).totalrewards = m.totalrewards) ∧
    (m.update_rewards i none true = m.update_rewards i (some 0) true ∧
     m.update_rewards i none false = m) ∧
    (m.alphas.getD i 0 = 0 → m.betas.getD i 0 = 0 →
      ((m.update_rewards i (some 1) naf).update_rewards i
        (some 0) naf).reward_estimates.getD i 0 = 1 / 2) := by
  refine ⟨?_, ?_, ⟨?_, ?_⟩, ?_⟩
  · rw [update_rewards_one]
    exact ⟨getD_set_self _ _ _ _ ha, getD_set_self _ _ _ _ he, rfl, lt_add_one _⟩
  · rw [update_rewards_zero]
    simp only [NaiveMAB.failureUpdate]
    exact ⟨getD_set_self _ _ _ _ hb, getD_set_self _ _ _ _ he, trivial⟩
  · rw [update_rewards_none, update_rewards_zero]
    simp
  · rw [update_rewards_none]
    simp
  · intro ha0 hb0
    rw [update_rewards_one, update_rewards_zero]
    simp only [NaiveMAB.failureUpdate]
    have he1 : i <
        (m.reward_estimates.set i
          ((m.alphas.getD i 0 + 1) /
            ((m.alphas.getD i 0 + 1) + m.betas.getD i 0))).length := by
      rw [List.length_set]; exact he
    rw [getD_set_self _ _ _ _ he1, getD_set_self _ _ _ _ ha]
    rw [ha0, hb0]
    norm_num

/-- A two-armed bandit at its construction state, zero priors. -/
def mabTwoArms : NaiveMAB := NaiveMAB.mk0 2 (1 / 5) 2 0 0

/-- Witness for C6 on a fresh two-armed bandit: a success on arm 0 raises
the accumulator by one, and success then failure on arm 0 from zero priors
yields estimate 1/2. -/
theorem update_rewards_spec_witness :
    0 < mabTwoArms.alphas.length ∧
    (mabTwoArms.update_rewards 0 (some 1) true).totalrewards =
      mabTwoArms.totalrewards + 1 ∧
    ((mabTwoArms.update_rewards 0 (some 1) true).update_rewards 0
      (some 0) true).reward_estimates.getD 0 0 = 1 / 2 :=
  ⟨by decide,
   (update_rewards_spec mabTwoArms 0 true (by decide) (by decide)
      (by decide)).1.2.2.1,
   (update_rewards_spec mabTwoArms 0 true (by decide) (by decide)
      (by decide)).2.2.2 rfl rfl⟩

/-! ## Claim C5: pull counts versus the epoch counter -/

/-- update_rewards touches only alphas, betas, estimates and the
accumulator: the pull counts and the epoch counter are unchanged in every
branch. -/
theorem update_rewards_preserves_pulls (m : NaiveMAB) (i : ℕ) (r : Option ℚ)
    (naf : Bool) :
    (m.update_rewards i r naf).num_pulls = m.num_pulls ∧
    (m.update_rewards i r naf).t = m.t := by
  cases r with
  | none => cases naf <;> simp [NaiveMAB.update_rewards, NaiveMAB.failureUpdate]
  | some v =>
      by_cases h1 : v = 1
      · simp [NaiveMAB.update_rewards, h1]
      · by_cases h0 : v = 0
        · simp [NaiveMAB.update_rewards, h0, h1, NaiveMAB.failureUpdate]
        · cases naf <;>
            simp [NaiveMAB.update_rewards, h0, h1, NaiveMAB.failureUpdate]

/-- C5: in every state reachable from construction by pull, pull_fixed_arm
(both bandit variants) update_rewards and reset_bandit, the per-arm pull
counts sum to t - 1; t is 1 at construction and after reset_bandit, and a
pull adds one to exactly one arm's pull count and one to t. -/
theorem pull_count_epoch_invariant (narms : ℕ) (epsilon delta alphas betas : ℚ)
    (s : NaiveMAB) (hs : MABReachable narms epsilon delta alphas betas s) :
    (s.num_pulls.sum = s.t - 1 ∧ 1 ≤ s.t) ∧
    (NaiveMAB.mk0 narms epsilon delta alphas betas).t = 1 ∧
    s.reset_bandit.t = 1 ∧
    ∀ i, i < s.num_pulls.length →
      (s.pullArm i).t = s.t + 1 ∧
      (s.pullArm i).num_pulls.getD i 0 = s.num_pulls.getD i 0 + 1 ∧
      ∀ j, j ≠ i → (s.pullArm i).num_pulls.getD j 0 = s.num_pulls.getD j 0 := by
  have key : s.num_pulls.sum + 1 = s.t := by
    induction hs with
    | refl => simp [NaiveMAB.mk0, List.sum_replicate]
    | @tail b c hab hbc ih =>
        cases hbc with
        | pull i h =>
            show (b.pullArm i).num_pulls.sum + 1 = (b.pullArm i).t
            simp only [NaiveMAB.pullArm]
            rw [sum_set_getD_succ _ _ h]
            omega
        | pullRestricted arms fake h =>
            show ((b.pullRestricted arms fake).2).num_pulls.sum + 1 =
              ((b.pullRestricted arms fake).2).t
            simp only [NaiveMAB.pullRestricted, NaiveMAB.pullArm]
            rw [sum_set_getD_succ _ _ h]
            omega
        | update i r naf =>
            obtain ⟨hp, ht⟩ := update_rewards_preserves_pulls b i r naf
            rw [hp, ht]
            exact ih
        | reset =>
            show b.reset_bandit.num_pulls.sum + 1 = b.reset_bandit.t
            simp [NaiveMAB.reset_bandit, List.sum_replicate]
  refine ⟨⟨by omega, by omega⟩, rfl, rfl, ?_⟩
  intro i hi
  exact ⟨rfl, getD_set_self _ _ _ _ hi, fun j hj => getD_set_ne _ _ _ hj⟩

/-- Witness for C5: the state of a fresh two-armed bandit after one pull of
arm 0 is reachable and satisfies sum of pulls = t - 1 (here 1 = 2 - 1). -/
theorem pull_count_epoch_invariant_witness :
    MABReachable 2 (1 / 5) 2 0 0 (mabTwoArms.pullArm 0) ∧
    (mabTwoArms.pullArm 0).num_pulls.sum = (mabTwoArms.pullArm 0).t - 1 :=
  have hreach : MABReachable 2 (1 / 5) 2 0 0 (mabTwoArms.pullArm 0) :=
    Relation.ReflTransGen.single (MABStep.pull mabTwoArms 0 (by decide))
  ⟨hreach,
    (pull_count_epoch_invariant 2 (1 / 5) 2 0 0 (mabTwoArms.pullArm 0)
      hreach).1.1⟩

/-! ## Claim C7: the ucb policy -/

theorem le_foldl_max (xs : List ℚ) (b : ℚ) : b ≤ xs.foldl max b := by
  induction xs generalizing b with
  | nil => simp
  | cons x t ih => exact le_trans (le_max_left b x) (ih (max b x))

theorem mem_le_foldl_max (xs : List ℚ) (b : ℚ) {a : ℚ} (h : a ∈ xs) :
    a ≤ xs.foldl max b := by
  induction xs generalizing b with
  | nil => simp at h
  | cons x t ih =>
      rcases List.mem_cons.mp h with rfl | ht
      · exact le_trans (le_max_right b a) (le_foldl_max t (max b a))
      · exact ih (max b x) ht

theorem foldl_max_eq_or_mem (xs : List ℚ) (b : ℚ) :
    xs.foldl max b = b ∨ xs.foldl max b ∈ xs := by
  induction xs generalizing b with
  | nil => left; rfl
  | cons x t ih =>
      rcases ih (max b x) with heq | hmem
      · rcases max_cases b x with ⟨hmax, _⟩ | ⟨hmax, _⟩
        · left
          rw [List.foldl_cons, heq, hmax]
        · right
          rw [List.foldl_cons, heq, hmax]
          exact List.mem_cons_self x t
      · right
        exact List.mem_cons_of_mem x hmem

theorem npMax_mem {xs : List ℚ} (h : xs ≠ []) : npMax xs ∈ xs := by
  cases xs with
  | nil => exact absurd rfl h
  | cons x t =>
      show t.foldl max x ∈ x :: t
      rcases foldl_max_eq_or_mem t x with heq | hmem
      · rw [heq]
        exact List.mem_cons_self x t
      · exact List.mem_cons_of_mem x hmem

theorem le_npMax_of_mem {xs : List ℚ} {a : ℚ} (h : a ∈ xs) : a ≤ npMax xs := by
  cases xs with
  | nil => simp at h
  | cons x t =>
      show a ≤ t.foldl max x
      rcases List.mem_cons.mp h with rfl | ht
      · exact le_foldl_max t a
      · exact mem_le_foldl_max t x ht

theorem mem_zeroIndexes {n_pulls : List ℕ} {i : ℕ} :
    i ∈ zeroIndexes n_pulls ↔ i < n_pulls.length ∧ n_pulls.getD i 0 = 0 := by
  simp [zeroIndexes, List.mem_filter, List.mem_range]

theorem mem_maxIndexes {values : List ℚ} {i : ℕ} :
    i ∈ maxIndexes values ↔
      i < values.length ∧ values.getD i 0 = npMax values := by
  simp [maxIndexes, List.mem_filter, List.mem_range]

theorem maxIndexes_ne_nil {values : List ℚ} (h : values ≠ []) :
    maxIndexes values ≠ [] := by
  obtain ⟨k, hkv⟩ := List.mem_iff_get.mp (npMax_mem h)
  intro hnil
  have hk : (k : ℕ) ∈ maxIndexes values := by
    refine mem_maxIndexes.mpr ⟨k.isLt, ?_⟩
    rw [List.getD_eq_getElem _ _ k.isLt]
    simpa using hkv
  rw [hnil] at hk
  simp at hk

/-- C7: on a nonempty candidate set, ucb returns an index with zero pulls
whenever some candidate has zero pulls, for every delta; otherwise it
returns an index maximizing rewards[i] + sqrt(d * log(epoch) / pulls[i]),
where d is delta patched to 1 + epoch * (log epoch)^2 when delta is
negative. choose is any tie-breaking choice returning a member of the
candidate list it receives. -/
theorem ucb_spec (log sqrt : ℚ → ℚ) (choose : List ℕ → ℕ)
    (hchoose : ∀ l : List ℕ, l ≠ [] → choose l ∈ l)
    (rewards : List ℚ) (n_pulls : List ℕ) (mab_epoch : ℕ) (delta : ℚ)
    (hlen : n_pulls.length = rewards.length) (hne : rewards ≠ []) :
    ∃ i, ucb log sqrt choose rewards n_pulls mab_epoch delta = some i ∧
      ((∃ j, j < n_pulls.length ∧ n_pulls.getD j 0 = 0) →
        i < n_pulls.length ∧ n_pulls.getD i 0 = 0) ∧
      ((∀ j, j < n_pulls.length → n_pulls.getD j 0 ≠ 0) →
        i < rewards.length ∧
        ∀ j, j < rewards.length →
          ucbScore log sqrt rewards n_pulls mab_epoch
            (patchDelta log mab_epoch delta) j ≤
          ucbScore log sqrt rewards n_pulls mab_epoch
            (patchDelta log mab_epoch delta) i) := by
  have hlen0 : ¬rewards.length = 0 := by
    intro h
    exact hne (List.eq_nil_of_length_eq_zero h)
  simp only [ucb]
  rw [if_neg hlen0]
  by_cases hz : 0 < (zeroIndexes n_pulls).length
  · rw [if_pos hz]
    have hznil : zeroIndexes n_pulls ≠ [] := by
      intro h
      rw [h] at hz
      simp at hz
    have hzprop := mem_zeroIndexes.mp (hchoose _ hznil)
    refine ⟨choose (zeroIndexes n_pulls), rfl, fun _ => hzprop, fun hall => ?_⟩
    exact absurd hzprop.2 (hall _ hzprop.1)
  · rw [if_neg hz]
    have hvlen :
        ((List.range rewards.length).map
          (ucbScore log sqrt rewards n_pulls mab_epoch
            (patchDelta log mab_epoch delta))).length = rewards.length := by
      simp
    have hvne :
        (List.range rewards.length).map
          (ucbScore log sqrt rewards n_pulls mab_epoch
            (patchDelta log mab_epoch delta)) ≠ [] := by
      intro h
      rw [h] at hvlen
      exact hlen0 hvlen.symm
    have hprop := mem_maxIndexes.mp (hchoose _ (maxIndexes_ne_nil hvne))
    refine ⟨_, rfl, fun hex => ?_, fun _ => ?_⟩
    · obtain ⟨j, hj, hj0⟩ := hex
      have hjz : j ∈ zeroIndexes n_pulls := mem_zeroIndexes.mpr ⟨hj, hj0⟩
      exact absurd (List.length_pos.mpr (List.ne_nil_of_mem hjz)) hz
    · rw [hvlen] at hprop
      refine ⟨hprop.1, ?_⟩
      intro j hj
      have hjv := getD_map_range
        (ucbScore log sqrt rewards n_pulls mab_epoch
          (patchDelta log mab_epoch delta)) hj
      have hiv := getD_map_range
        (ucbScore log sqrt rewards n_pulls mab_epoch
          (patchDelta log mab_epoch delta)) hprop.1
      rw [← hjv, ← hiv, hprop.2]
      apply le_npMax_of_mem
      rw [List.getD_eq_getElem _ _ (show j <
        ((List.range rewards.length).map
          (ucbScore log sqrt rewards n_pulls mab_epoch
            (patchDelta log mab_epoch delta))).length by rw [hvlen]; exact hj)]
      exact List.getElem_mem _

/-- Witness for C7: with one arm at zero pulls, ucb picks a zero-pull arm. -/
theorem ucb_spec_witness :
    ∃ i, ucb id id (fun l => l.headD 0) [1 / 2, 1] [1, 0] 1 2 = some i ∧
      i < 2 ∧ [1, 0].getD i 0 = 0 := by
  obtain ⟨i, h1, h2, _⟩ :=
    ucb_spec id id (fun l => l.headD 0)
      (fun l hl => by
        cases l with
        | nil => exact absurd rfl hl
        | cons a t => simp)
      [1 / 2, 1] [1, 0] 1 2 (by decide) (by decide)
  obtain ⟨hlt, hzero⟩ := h2 ⟨1, by decide, by decide⟩
  exact ⟨i, h1, hlt, hzero⟩

/-! ## Claim C10: all_metrics denominators are positive -/

/-- A User Session held-out lookup yields either the NaN-sentinel record or
a record stored in the held-out set. -/
theorem get_test_rating_cases (dl : DataLayer) (u item : ℕ) :
    UserLayer.get_test_rating dl u item = { rating := none } ∨
    (UserLayer.get_test_rating dl u item).rating ∈ dl.testRatings := by
  cases hfind : (dl.get_user_test_ratings_dict u).find? (fun p => p.1 == item) with
  | none =>
      left
      simp [UserLayer.get_test_rating, hfind]
  | some p =>
      right
      simp only [UserLayer.get_test_rating, hfind]
      have hp : p ∈ dl.get_user_test_ratings_dict u :=
        List.mem_of_find?_eq_some hfind
      unfold DataLayer.get_user_test_ratings_dict at hp
      obtain ⟨e, he, hpe⟩ := List.mem_map.mp hp
      have he2 : e ∈ dl.test_set := List.mem_of_mem_filter he
      unfold DataLayer.testRatings
      refine List.mem_map.mpr ⟨e, he2, ?_⟩
      rw [← hpe]

/-- C10: for a rating record obtained from the held-out set through the
User Session lookup, every division performed by all_metrics has a positive
denominator: the strict relevance predicate forces the non-strict
constructor count relevantCount to be at least 1, and symmetrically for
antiRelevantCount and toDiscoverCount; precision and antiprecision divide
by the iteration counter, which all_metrics increments before use. -/
theorem all_metrics_denominators_positive (dl : DataLayer) (u item : ℕ) :
    (dl.isRelevant (UserLayer.get_test_rating dl u item) = true →
      1 ≤ dl.relevantCount) ∧
    (dl.isAntiRelevant (UserLayer.get_test_rating dl u item) = true →
      1 ≤ dl.antiRelevantCount) ∧
    ((dl.isRelevant (UserLayer.get_test_rating dl u item) = true ∨
      dl.isAntiRelevant (UserLayer.get_test_rating dl u item) = true) →
      1 ≤ dl.toDiscoverCount) ∧
    ∀ ev : Evaluator,
      1 ≤ ((ev.all_metrics (UserLayer.get_test_rating dl u item)).1).n_iters := by
  have hrel : dl.isRelevant (UserLayer.get_test_rating dl u item) = true →
      1 ≤ dl.relevantCount := by
    intro h
    rcases get_test_rating_cases dl u item with hnone | hmem
    · rw [hnone] at h
      simp [DataLayer.isRelevant] at h
    · unfold DataLayer.isRelevant at h
      cases hr : (UserLayer.get_test_rating dl u item).rating with
      | none =>
          rw [hr] at h
          simp at h
      | some v =>
          rw [hr] at h hmem
          simp only [decide_eq_true_eq] at h
          have hpos : 0 < dl.relevantCount := by
            unfold DataLayer.relevantCount
            refine List.countP_pos_iff.mpr ⟨some v, hmem, ?_⟩
            simpa using le_of_lt h
          omega
  have hanti : dl.isAntiRelevant (UserLayer.get_test_rating dl u item) = true →
      1 ≤ dl.antiRelevantCount := by
    intro h
    rcases get_test_rating_cases dl u item with hnone | hmem
    · rw [hnone] at h
      simp [DataLayer.isAntiRelevant] at h
    · unfold DataLayer.isAntiRelevant at h
      cases hr : (UserLayer.get_test_rating dl u item).rating with
      | none =>
          rw [hr] at h
          simp at h
      | some v =>
          rw [hr] at h hmem
          simp only [decide_eq_true_eq] at h
          have hpos : 0 < dl.antiRelevantCount := by
            unfold DataLayer.antiRelevantCount
            refine List.countP_pos_iff.mpr ⟨some v, hmem, ?_⟩
            simpa using le_of_lt h
          omega
  refine ⟨hrel, hanti, ?_, ?_⟩
  · intro hor
    unfold DataLayer.toDiscoverCount
    rcases hor with h | h
    · have := hrel h
      omega
    · have := hanti h
      omega
  · intro ev
    show 1 ≤ ev.n_iters + 1
    omega

/-- A store whose single held-out rating 5 is strictly relevant. -/
def dlFive : DataLayer :=
  { relevanceThreshold := 3
    antiRelevanceThreshold := 3
    test_set := [(0, 0, { rating := some 5 })]
    matrix_row_labels := []
    matrix_cells := fun _ _ => none
    n_users := 1
    n_items := 1 }

/-- Witness for C10 at a concrete store and held-out cell. -/
theorem all_metrics_denominators_positive_witness :
    dlFive.isRelevant (UserLayer.get_test_rating dlFive 0 0) = true ∧
    1 ≤ dlFive.relevantCount :=
  ⟨by decide, (all_metrics_denominators_positive dlFive 0 0).1 (by decide)⟩

end CycloRec
